import Mathlib

/-!
Verification of the Caelum weather-station firmware core against its
natural-language specification.

Shallow embedding conventions:
* C unsigned integers become `Nat`, with `% 2^w` applied exactly where the
  C code can overflow or truncate (e.g. the `(uint8_t)`/`(uint16_t)` casts).
* Fallible ESP-IDF calls (`esp_err_t`) become `Except EspErr`; collaborator
  behaviour (I2C reads, ADC samples, calibration conversion) is supplied by
  an explicit environment record so every execution path of the C function
  is reachable in the model.
* `float` expressions whose claims are about the algebraic shape of the
  computation (the anemometer speed formula) are embedded over `ℚ`, with
  the source's decimal literals taken at their exact decimal value.
* Statics mutated by a function become an explicit state record threaded
  through the function.
-/

/-- Error codes. Mirrors the `esp_err_t` values the modelled code can
return; the distinction that matters to the claims is only OK vs non-OK. -/
inductive EspErr where
  | invalidArg
  | fail
  | adcReadFailed
  | caliFailed
  | busReadFailed
  | busWriteFailed
  deriving DecidableEq, Repr

/-! ## Battery monitor (src/unnamed/part_000, battery section) -/

/-- Voltage divider top resistor, `BATTERY_VOLTAGE_DIVIDER_R1` (esp_zb_weather.h). -/
def BATTERY_VOLTAGE_DIVIDER_R1 : Nat := 100000

/-- Voltage divider bottom resistor, `BATTERY_VOLTAGE_DIVIDER_R2` (esp_zb_weather.h). -/
def BATTERY_VOLTAGE_DIVIDER_R2 : Nat := 100000

/-- Embedding of `battery_voltage_to_percentage` (part_000 lines 293-303).
`v_min = 2700`, `v_max = 4200`; below/at the low bound gives 0, at/above the
high bound gives 100, and strictly between the C code computes
`((voltage_mv - v_min) * 100) / (v_max - v_min)` in `int` arithmetic
(truncating division; all intermediates fit in `int`, and the result is
below 256 so the final `(uint8_t)` cast is the identity). -/
def battery_voltage_to_percentage (voltage_mv : Nat) : Nat :=
  if voltage_mv ≤ 2700 then 0
  else if 4200 ≤ voltage_mv then 100
  else ((voltage_mv - 2700) * 100) / 1500

/-- Collaborator behaviour visible to one `battery_read_voltage` call:
the result of the i-th `adc_oneshot_read` (`none` = non-OK return), whether
ADC calibration was initialised (`adc_calibrated`), and the behaviour of
`adc_cali_raw_to_voltage` on a raw average (`none` = non-OK return). -/
structure BatteryEnv where
  adcRead : Nat → Option Nat
  adcCalibrated : Bool
  caliRawToVoltage : Nat → Option Nat

/-- Statics of the battery monitor plus the observable drive level of
`BATTERY_ENABLE_GPIO` (the MOSFET power gate). -/
structure BatteryState where
  gateLevel : Nat
  last_voltage_mv : Nat
  last_percentage : Nat
  deriving DecidableEq, Repr

/-- State after `battery_monitor_init`: the gate is driven low
(part_000 line 179) and the statics are zero-initialised. -/
def battery_init_state : BatteryState :=
  { gateLevel := 0, last_voltage_mv := 0, last_percentage := 0 }

/-- The sampling loop of `battery_read_voltage` (part_000 lines 249-259):
take `n` ADC readings starting at index `i`, accumulating their sum;
abort at the first failed reading. -/
def adc_sample_loop (read : Nat → Option Nat) : Nat → Nat → Nat → Option Nat
  | 0, _, acc => some acc
  | n + 1, i, acc =>
    match read i with
    | none => none
    | some adc_raw => adc_sample_loop read n (i + 1) (acc + adc_raw)

/-- Embedding of `battery_read_voltage` (part_000 lines 237-291).
Paths, in source order: enable the gate and wait the settle delay; take 3
ADC samples, and on a failed read disable the gate and return the error;
disable the gate; average; convert the average through
`adc_cali_raw_to_voltage` when calibrated (returning its error on failure)
or the raw fallback `avg * 3300 / 4095` otherwise; scale by the divider
ratio; truncate to `uint16`; store the voltage and its percentage in the
statics and return OK. The NULL-pointer early return at line 239 precedes
any gate manipulation and is not modelled (the out-parameter is the
returned value here). -/
def battery_read_voltage (env : BatteryEnv) (st : BatteryState) :
    Except EspErr Nat × BatteryState :=
  let st1 := { st with gateLevel := 1 }
  match adc_sample_loop env.adcRead 3 0 0 with
  | none => (.error .adcReadFailed, { st1 with gateLevel := 0 })
  | some adc_raw_sum =>
    let st2 := { st1 with gateLevel := 0 }
    let adc_raw_avg := adc_raw_sum / 3
    let vdiv : Option Nat :=
      if env.adcCalibrated then env.caliRawToVoltage adc_raw_avg
      else some (adc_raw_avg * 3300 / 4095)
    match vdiv with
    | none => (.error .caliFailed, st2)
    | some voltage_divider_mv =>
      let battery_mv :=
        voltage_divider_mv * (BATTERY_VOLTAGE_DIVIDER_R1 + BATTERY_VOLTAGE_DIVIDER_R2)
          / BATTERY_VOLTAGE_DIVIDER_R2
      let v16 := battery_mv % 65536
      (.ok v16,
        { st2 with
          last_voltage_mv := v16,
          last_percentage := battery_voltage_to_percentage v16 })

/-- Embedding of `battery_get_zigbee_voltage` (part_000 lines 305-309):
`(uint8_t)(last_voltage_mv / 100)`. -/
def battery_get_zigbee_voltage (st : BatteryState) : Nat :=
  (st.last_voltage_mv / 100) % 256

/-- Embedding of `battery_get_zigbee_percentage` (part_000 lines 311-315):
`last_percentage * 2` computed in `int` and truncated back to `uint8`. -/
def battery_get_zigbee_percentage (st : BatteryState) : Nat :=
  (st.last_percentage * 2) % 256

/-- Percentage never exceeds 100: the interior interpolation is at most
`149900 / 1500 = 99`. -/
theorem battery_voltage_to_percentage_le_100 (v : Nat) :
    battery_voltage_to_percentage v ≤ 100 := by
  unfold battery_voltage_to_percentage
  split
  · exact Nat.zero_le _
  · split
    · exact Nat.le_refl _
    · rename_i h1 h2
      have hv : v - 2700 ≤ 1499 := by omega
      calc (v - 2700) * 100 / 1500 ≤ 1499 * 100 / 1500 :=
            Nat.div_le_div_right (Nat.mul_le_mul_right 100 hv)
        _ ≤ 100 := by norm_num

/-- C3 (counterexample): the claim says `battery_voltage_to_percentage 3700`
is 67 (66.7% rounded up); the code's truncating integer division gives
`(1000 * 100) / 1500 = 66`, so the claimed value is wrong. -/
theorem battery_percentage_3700_ne_67 :
    battery_voltage_to_percentage 3700 ≠ 67 := by decide

/-- C3 (amended): with low bound 2700 mV and high bound 4200 mV,
`battery_voltage_to_percentage 3700` returns 66, the linear interpolation
`(3700 - 2700) * 100 / (4200 - 2700) = 66.7%` truncated to 66 by integer
division. -/
theorem battery_percentage_3700_eq_66 :
    battery_voltage_to_percentage 3700 = 66 := by decide

/-- C4: `battery_voltage_to_percentage` is a deterministic function of the
voltage alone (it is a pure function of its argument) and is monotonic
non-decreasing; every voltage ≤ 2700 mV maps to 0, every voltage ≥ 4200 mV
maps to 100, and strictly between the bounds the value is the linear
interpolation `(v - 2700) * 100 / 1500` (integer division). -/
theorem battery_percentage_monotone_and_bounds :
    (∀ v1 v2 : Nat, v1 ≤ v2 →
        battery_voltage_to_percentage v1 ≤ battery_voltage_to_percentage v2) ∧
    (∀ v : Nat, v ≤ 2700 → battery_voltage_to_percentage v = 0) ∧
    (∀ v : Nat, 4200 ≤ v → battery_voltage_to_percentage v = 100) ∧
    (∀ v : Nat, 2700 < v → v < 4200 →
        battery_voltage_to_percentage v = (v - 2700) * 100 / 1500) := by
  refine ⟨?_, ?_, ?_, ?_⟩
  · intro v1 v2 h12
    by_cases h1 : v1 ≤ 2700
    · simp [battery_voltage_to_percentage, h1]
    · by_cases h1h : 4200 ≤ v1
      · have h2h : 4200 ≤ v2 := le_trans h1h h12
        have h2 : ¬ v2 ≤ 2700 := by omega
        simp [battery_voltage_to_percentage, h1, h1h, h2, h2h]
      · by_cases h2h : 4200 ≤ v2
        · have h2 : ¬ v2 ≤ 2700 := by omega
          have hv2 : battery_voltage_to_percentage v2 = 100 := by
            simp [battery_voltage_to_percentage, h2, h2h]
          rw [hv2]
          exact battery_voltage_to_percentage_le_100 v1
        · have h2 : ¬ v2 ≤ 2700 := by omega
          simp only [battery_voltage_to_percentage, if_neg h1, if_neg h1h,
            if_neg h2, if_neg h2h]
          exact Nat.div_le_div_right
            (Nat.mul_le_mul_right 100 (Nat.sub_le_sub_right h12 2700))
  · intro v hv
    simp [battery_voltage_to_percentage, hv]
  · intro v hv
    have : ¬ v ≤ 2700 := by omega
    simp [battery_voltage_to_percentage, this, hv]
  · intro v h1 h2
    have hl : ¬ v ≤ 2700 := by omega
    have hh : ¬ 4200 ≤ v := by omega
    simp [battery_voltage_to_percentage, hl, hh]

/-- C4 witness: the monotonicity, boundary and interpolation clauses of
`battery_percentage_monotone_and_bounds` at concrete voltages. -/
theorem battery_percentage_monotone_and_bounds_witness :
    battery_voltage_to_percentage 3000 ≤ battery_voltage_to_percentage 3500 ∧
    battery_voltage_to_percentage 2600 = 0 ∧
    battery_voltage_to_percentage 4300 = 100 ∧
    battery_voltage_to_percentage 3700 = (3700 - 2700) * 100 / 1500 :=
  ⟨battery_percentage_monotone_and_bounds.1 3000 3500 (by decide),
   battery_percentage_monotone_and_bounds.2.1 2600 (by decide),
   battery_percentage_monotone_and_bounds.2.2.1 4300 (by decide),
   battery_percentage_monotone_and_bounds.2.2.2 3700 (by decide) (by decide)⟩

/-- C5: every execution path of `battery_read_voltage` — the success path,
the ADC-read failure path, and the calibration-conversion failure path —
leaves `BATTERY_ENABLE_GPIO` driven low when the function returns (the
gate is enabled unconditionally at the start, so every modelled path
passes the enabling point). -/
theorem battery_gate_low_after_read (env : BatteryEnv) (st : BatteryState) :
    (battery_read_voltage env st).2.gateLevel = 0 := by
  unfold battery_read_voltage
  dsimp only
  split
  · rfl
  · split
    · rfl
    · rfl

/-- C6: whenever `battery_read_voltage` returns a non-OK result, the cached
sample is retained: `last_voltage_mv` and `last_percentage` are unchanged,
so `battery_get_zigbee_voltage` and `battery_get_zigbee_percentage` still
report the values from the last successful sample. -/
theorem battery_error_retains_sample (env : BatteryEnv) (st : BatteryState)
    (e : EspErr) (h : (battery_read_voltage env st).1 = .error e) :
    (battery_read_voltage env st).2.last_voltage_mv = st.last_voltage_mv ∧
    (battery_read_voltage env st).2.last_percentage = st.last_percentage ∧
    battery_get_zigbee_voltage (battery_read_voltage env st).2 =
      battery_get_zigbee_voltage st ∧
    battery_get_zigbee_percentage (battery_read_voltage env st).2 =
      battery_get_zigbee_percentage st := by
  unfold battery_read_voltage at h ⊢
  dsimp only at h ⊢
  split
  · exact ⟨rfl, rfl, rfl, rfl⟩
  · rename_i s heq1
    split
    · exact ⟨rfl, rfl, rfl, rfl⟩
    · rename_i v heq2
      simp only [heq1] at h
      simp only [heq2] at h
      exact absurd h (by simp)

/-- Environment whose very first ADC read fails, for exercising the
error path of `battery_read_voltage` on a concrete input. -/
def battery_fail_env : BatteryEnv :=
  { adcRead := fun _ => none, adcCalibrated := true,
    caliRawToVoltage := fun _ => none }

/-- Concrete cached state from an earlier successful sample. -/
def battery_test_state : BatteryState :=
  { gateLevel := 0, last_voltage_mv := 3700, last_percentage := 66 }

/-- C6 witness: a failed call with every ADC read erroring leaves the
concrete cached sample (3700 mV, 66%) untouched. -/
theorem battery_error_retains_sample_witness :
    (battery_read_voltage battery_fail_env battery_test_state).2.last_voltage_mv =
      battery_test_state.last_voltage_mv ∧
    (battery_read_voltage battery_fail_env battery_test_state).2.last_percentage =
      battery_test_state.last_percentage ∧
    battery_get_zigbee_voltage (battery_read_voltage battery_fail_env battery_test_state).2 =
      battery_get_zigbee_voltage battery_test_state ∧
    battery_get_zigbee_percentage (battery_read_voltage battery_fail_env battery_test_state).2 =
      battery_get_zigbee_percentage battery_test_state :=
  battery_error_retains_sample battery_fail_env battery_test_state .adcReadFailed rfl

/-- Percentage cache coherence: `last_percentage` is exactly the percentage
of `last_voltage_mv`. -/
def BatteryInv (st : BatteryState) : Prop :=
  st.last_percentage = battery_voltage_to_percentage st.last_voltage_mv

/-- One `battery_read_voltage` call preserves `BatteryInv`: error paths
leave the cache untouched and the success path stores a voltage together
with exactly its percentage. -/
theorem battery_inv_step (env : BatteryEnv) (st : BatteryState)
    (h : BatteryInv st) : BatteryInv (battery_read_voltage env st).2 := by
  unfold battery_read_voltage
  dsimp only
  split
  · exact h
  · split
    · exact h
    · exact rfl

/-- State after initialisation and a sequence of `battery_read_voltage`
calls with arbitrary collaborator behaviour (successes and failures mixed). -/
def battery_run (envs : List BatteryEnv) : BatteryState :=
  envs.foldl (fun s e => (battery_read_voltage e s).2) battery_init_state

/-- Folding `battery_read_voltage` steps preserves `BatteryInv`. -/
theorem battery_inv_foldl (envs : List BatteryEnv) (st : BatteryState)
    (h : BatteryInv st) :
    BatteryInv (envs.foldl (fun s e => (battery_read_voltage e s).2) st) := by
  induction envs generalizing st with
  | nil => exact h
  | cons e rest ih => exact ih _ (battery_inv_step e st h)

/-- C9: after initialisation and any sequence of `battery_read_voltage`
calls, the cached `last_percentage` equals
`battery_voltage_to_percentage last_voltage_mv`; consequently
`battery_get_zigbee_percentage` returns exactly twice that percentage,
a value at most 200, with no `uint8` truncation. -/
theorem battery_percentage_cache_invariant (envs : List BatteryEnv) :
    (battery_run envs).last_percentage =
      battery_voltage_to_percentage (battery_run envs).last_voltage_mv ∧
    battery_get_zigbee_percentage (battery_run envs) =
      2 * battery_voltage_to_percentage (battery_run envs).last_voltage_mv ∧
    battery_get_zigbee_percentage (battery_run envs) ≤ 200 := by
  have hinv : BatteryInv (battery_run envs) :=
    battery_inv_foldl envs battery_init_state rfl
  have hle : (battery_run envs).last_percentage ≤ 100 := by
    rw [hinv]; exact battery_voltage_to_percentage_le_100 _
  have hmod : (battery_run envs).last_percentage * 2 % 256 =
      (battery_run envs).last_percentage * 2 :=
    Nat.mod_eq_of_lt (by omega)
  refine ⟨hinv, ?_, ?_⟩
  · unfold battery_get_zigbee_percentage
    rw [hmod, ← hinv]
    omega
  · unfold battery_get_zigbee_percentage
    rw [hmod]
    omega

/-! ## Anemometer (src/main/anemometer.c) -/

/-- `ANEMOMETER_PULSES_PER_REV` (as5600.h line 79): SS445P gives 1 pulse
per revolution. -/
def ANEMOMETER_PULSES_PER_REV : ℚ := 1

/-- `ANEMOMETER_RADIUS_M` (as5600.h line 78): 0.07 m cup radius. -/
def ANEMOMETER_RADIUS_M : ℚ := 7 / 100

/-- `ANEMOMETER_CALIBRATION` (as5600.h line 80): factor 1.18. -/
def ANEMOMETER_CALIBRATION : ℚ := 118 / 100

/-- The statics of the anemometer driver: the volatile pulse counter
(`uint32_t`, written by the ISR) and the window-start timestamp
(`int64_t`, microseconds). -/
structure AnemState where
  pulse_count : Nat
  last_measurement_time_us : Int
  deriving DecidableEq, Repr

/-- Embedding of `anemometer_isr_handler` (anemometer.c lines 22-25): an
unconditional `pulse_count++` on a `uint32_t`, with no refractory check. -/
def anemometer_isr_handler (st : AnemState) : AnemState :=
  { st with pulse_count := (st.pulse_count + 1) % 4294967296 }

/-- Embedding of `anemometer_get_wind_speed` (anemometer.c lines 66-95) as
observed by the single main context (the C1 race is modelled separately).
`current_time_us` is the value `esp_timer_get_time()` returns for this
call. If no time has elapsed since the window start the call returns OK
with speed 0 and touches nothing; otherwise it snapshots and zeroes the
pulse counter, restarts the window at the current time, and computes
`v = pulses / (PULSES_PER_REV * elapsed_s) * (2 * 3.14159 * RADIUS) *
CALIBRATION` (float arithmetic embedded over `ℚ` with the source's
decimal literals exact). -/
def anemometer_get_wind_speed (current_time_us : Int) (st : AnemState) :
    Except EspErr ℚ × AnemState :=
  let elapsed_us := current_time_us - st.last_measurement_time_us
  if elapsed_us ≤ 0 then (.ok 0, st)
  else
    let pulses := st.pulse_count
    let elapsed_s : ℚ := (elapsed_us : ℚ) / 1000000
    let rotations_per_sec : ℚ := (pulses : ℚ) / (ANEMOMETER_PULSES_PER_REV * elapsed_s)
    let circumference : ℚ := 2 * (314159 / 100000) * ANEMOMETER_RADIUS_M
    (.ok (rotations_per_sec * circumference * ANEMOMETER_CALIBRATION),
      { pulse_count := 0, last_measurement_time_us := current_time_us })

/-- Wind speed as the specification phrases it: edge-count divided by
(pulses-per-revolution times the elapsed window in seconds), multiplied by
the wheel circumference `2π·radius` (π at the source's 3.14159) and the
calibration factor. Written from the claim's words, to be compared with
the code embedding. -/
def wind_speed_of_window (pulses : Nat) (elapsed_us : Int) : ℚ :=
  ((pulses : ℚ) / (1 * ((elapsed_us : ℚ) / 1000000))) *
    (2 * (314159 / 100000) * (7 / 100)) * (118 / 100)

/-- C10: a call of `anemometer_get_wind_speed` when no time has elapsed
since the window start (elapsed ≤ 0) returns OK with speed 0 and leaves
the pending pulse count and the window-start timestamp unchanged. -/
theorem anemometer_zero_elapsed_noop (now : Int) (st : AnemState)
    (h : now - st.last_measurement_time_us ≤ 0) :
    anemometer_get_wind_speed now st = (.ok 0, st) := by
  unfold anemometer_get_wind_speed
  simp [h]

/-- C10 witness: calling at time 0 with the window started at time 5 and 3
pulses pending returns speed 0 and the untouched state. -/
theorem anemometer_zero_elapsed_noop_witness :
    anemometer_get_wind_speed 0 ⟨3, 5⟩ = (.ok 0, (⟨3, 5⟩ : AnemState)) :=
  anemometer_zero_elapsed_noop 0 ⟨3, 5⟩ (by decide)

/-- A burst of `n` ISR edges increments the counter by exactly `n`
(modulo the `uint32_t` width): no edge is filtered. -/
theorem anemometer_isr_iterate (n : Nat) (st : AnemState)
    (h : st.pulse_count < 4294967296) :
    (anemometer_isr_handler^[n] st).pulse_count =
      (st.pulse_count + n) % 4294967296 := by
  induction n generalizing st with
  | zero => simpa using (Nat.mod_eq_of_lt h).symm
  | succ n ih =>
    rw [Function.iterate_succ_apply]
    rw [ih (anemometer_isr_handler st) (Nat.mod_lt _ (by norm_num))]
    show ((st.pulse_count + 1) % 4294967296 + n) % 4294967296 = _
    rw [Nat.mod_add_mod]
    ring_nf

/-- C7: the interrupt handler applies no refractory filtering — a burst of
`n` edges increments the counter by exactly `n` (mod 2^32) — and a flush
with positive elapsed time returns the speed given by edge-count ÷
elapsed-time in physical units (`wind_speed_of_window`, the claim's
formula), then zeroes the pulse counter and restarts the window at the
current time. -/
theorem anemometer_counts_all_edges_and_flush_formula :
    (∀ (n : Nat) (st : AnemState), st.pulse_count < 4294967296 →
        (anemometer_isr_handler^[n] st).pulse_count =
          (st.pulse_count + n) % 4294967296) ∧
    (∀ (now : Int) (st : AnemState), 0 < now - st.last_measurement_time_us →
        anemometer_get_wind_speed now st =
          (.ok (wind_speed_of_window st.pulse_count
                  (now - st.last_measurement_time_us)),
           { pulse_count := 0, last_measurement_time_us := now })) := by
  refine ⟨anemometer_isr_iterate, ?_⟩
  intro now st h
  have h1 : ¬ now - st.last_measurement_time_us ≤ 0 := not_le.mpr h
  unfold anemometer_get_wind_speed wind_speed_of_window
  simp [h1, ANEMOMETER_PULSES_PER_REV, ANEMOMETER_RADIUS_M,
    ANEMOMETER_CALIBRATION]

/-- C7 witness: two edges from a fresh counter leave count 2, and flushing
4 pulses over a 2-second window yields the formula's value with the
counter zeroed and the window restarted. -/
theorem anemometer_counts_all_edges_and_flush_formula_witness :
    (anemometer_isr_handler^[2] (⟨0, 0⟩ : AnemState)).pulse_count =
      (0 + 2) % 4294967296 ∧
    anemometer_get_wind_speed 2000000 ⟨4, 0⟩ =
      (.ok (wind_speed_of_window 4 (2000000 - 0)),
       { pulse_count := 0, last_measurement_time_us := 2000000 }) :=
  ⟨anemometer_counts_all_edges_and_flush_formula.1 2 ⟨0, 0⟩ (by decide),
   anemometer_counts_all_edges_and_flush_formula.2 2000000 ⟨4, 0⟩ (by decide)⟩

/-- C2 (counterexample): with 5 pulses pending and the window started at
time 0, a first flush at time 0 takes the `elapsed ≤ 0` early return — it
reports 0 but consumes nothing — and a second flush at time 1, with no
intervening edges, then observes the 5 stale pulses and reports a nonzero
speed. The claim "the second call observes zero pulses and reports 0"
therefore fails on the code. -/
theorem anemometer_double_flush_nonzero :
    (anemometer_get_wind_speed 0 ⟨5, 0⟩).1 = .ok 0 ∧
    (anemometer_get_wind_speed 0 ⟨5, 0⟩).2 = (⟨5, 0⟩ : AnemState) ∧
    (anemometer_get_wind_speed 1 (anemometer_get_wind_speed 0 ⟨5, 0⟩).2).1 ≠
      .ok 0 := by
  refine ⟨rfl, rfl, ?_⟩
  intro h
  have : (5000000 : ℚ) / (1 * 1) * (2 * (314159 / 100000) * (7 / 100)) *
      (118 / 100) = 0 := by
    have h2 := h
    unfold anemometer_get_wind_speed at h2
    norm_num [ANEMOMETER_PULSES_PER_REV, ANEMOMETER_RADIUS_M,
      ANEMOMETER_CALIBRATION] at h2
  norm_num at this

/-- C2 (amended): if the first flush observes positive elapsed time — so
it actually consumes the pending count and restarts the window — then a
second flush at any time with no intervening edges reports a speed of 0
(either via the `elapsed ≤ 0` early return or by observing zero pulses). -/
theorem anemometer_flush_idempotent (t1 t2 : Int) (st : AnemState)
    (h : 0 < t1 - st.last_measurement_time_us) :
    (anemometer_get_wind_speed t2 (anemometer_get_wind_speed t1 st).2).1 =
      .ok 0 := by
  have h1 : ¬ t1 - st.last_measurement_time_us ≤ 0 := not_le.mpr h
  unfold anemometer_get_wind_speed
  simp only [h1, if_false]
  by_cases h2 : t2 - t1 ≤ 0
  · simp [h2]
  · simp [h2]

/-- C2 (amended) witness: after a consuming flush at time 1 from 5 pending
pulses, a second flush at time 2 reports speed 0. -/
theorem anemometer_flush_idempotent_witness :
    (anemometer_get_wind_speed 2 (anemometer_get_wind_speed 1 ⟨5, 0⟩).2).1 =
      .ok 0 :=
  anemometer_flush_idempotent 1 2 ⟨5, 0⟩ (by decide)

/-! ## Interleaving model of the ISR / flush race (C1)

`anemometer_get_wind_speed` consumes the shared volatile counter in two
separate statements (anemometer.c lines 80-81): `pulses = pulse_count;`
then `pulse_count = 0;`. On the single-core target the ISR can fire
between them. The model makes each shared-memory access one atomic action;
`edge` is the ISR body (line 24), `flushRead` is line 80 and `flushClear`
is line 81 of a flush executing with positive elapsed time. -/

/-- One atomic shared-memory action of the ISR / flush interleaving. -/
inductive RaceAction where
  | edge
  | flushRead
  | flushClear
  deriving DecidableEq, Repr

/-- Interleaving state: the shared volatile `pulse_count`; the flush's
local `pulses` variable; the running sum of deltas taken by completed
flushes; and the ghost count of edges the ISR has handled. -/
structure RaceState where
  pulse_count : Nat
  pulses_local : Nat
  delta_sum : Nat
  edges_handled : Nat
  deriving DecidableEq, Repr

/-- Effect of one atomic action, straight from the source statements. -/
def raceStep (s : RaceState) : RaceAction → RaceState
  | .edge =>
    { s with pulse_count := (s.pulse_count + 1) % 4294967296,
             edges_handled := s.edges_handled + 1 }
  | .flushRead => { s with pulses_local := s.pulse_count }
  | .flushClear =>
    { s with pulse_count := 0, delta_sum := s.delta_sum + s.pulses_local }

/-- Run an interleaving from the post-`anemometer_init` state (counter 0,
no edges, no flushes). -/
def raceRun (tr : List RaceAction) : RaceState :=
  tr.foldl raceStep ⟨0, 0, 0, 0⟩

/-- The racing interleaving: a flush reads `pulse_count` (0), the ISR
handles an edge (counter becomes 1), the flush then stores 0 over it; a
second complete flush finds nothing. Both flushes are well-formed
read-then-clear pairs. -/
def lost_edge_interleaving : List RaceAction :=
  [.flushRead, .edge, .flushClear, .flushRead, .flushClear]

/-- C1: in the interleaving where an edge interrupt fires between the
flush's read of `pulse_count` and its zeroing write, the handler has
counted 1 edge but the sum of all flush deltas is 0 and the counter is 0 —
the racing edge is lost forever, so the snapshot-and-clear of
`anemometer_get_wind_speed` does not behave as an atomic exchange. -/
theorem anemometer_flush_race_loses_edge :
    (raceRun lost_edge_interleaving).edges_handled = 1 ∧
    (raceRun lost_edge_interleaving).delta_sum = 0 ∧
    (raceRun lost_edge_interleaving).pulse_count = 0 := by decide

/-- One atomic action of the exchange-based variant the specification
mandates: the edge ISR, or a flush whose take-and-zero is a single atomic
exchange. -/
inductive ExchangeAction where
  | edge
  | flushExchange
  deriving DecidableEq, Repr

/-- Effect of one action when the flush consumes the counter atomically. -/
def exchangeStep (s : RaceState) : ExchangeAction → RaceState
  | .edge =>
    { s with pulse_count := (s.pulse_count + 1) % 4294967296,
             edges_handled := s.edges_handled + 1 }
  | .flushExchange =>
    { s with pulse_count := 0, delta_sum := s.delta_sum + s.pulse_count }

/-- Supporting result: had the flush been the atomic exchange the
specification requires, every interleaving would conserve edges — the sum
of flush deltas plus the pending counter always equals the number of
handled edges, modulo the `uint32_t` width. -/
theorem atomic_exchange_conserves_edges (tr : List ExchangeAction) :
    ((tr.foldl exchangeStep ⟨0, 0, 0, 0⟩).delta_sum +
        (tr.foldl exchangeStep ⟨0, 0, 0, 0⟩).pulse_count) % 4294967296 =
      (tr.foldl exchangeStep ⟨0, 0, 0, 0⟩).edges_handled % 4294967296 := by
  suffices h : ∀ (tr : List ExchangeAction) (s : RaceState),
      (s.delta_sum + s.pulse_count) % 4294967296 =
        s.edges_handled % 4294967296 →
      ((tr.foldl exchangeStep s).delta_sum +
          (tr.foldl exchangeStep s).pulse_count) % 4294967296 =
        (tr.foldl exchangeStep s).edges_handled % 4294967296 by
    exact h tr ⟨0, 0, 0, 0⟩ rfl
  intro tr
  induction tr with
  | nil => intro s hs; exact hs
  | cons a rest ih =>
    intro s hs
    refine ih (exchangeStep s a) ?_
    cases a with
    | edge =>
      show (s.delta_sum + (s.pulse_count + 1) % 4294967296) % 4294967296 =
        (s.edges_handled + 1) % 4294967296
      omega
    | flushExchange =>
      show (s.delta_sum + s.pulse_count + 0) % 4294967296 =
        s.edges_handled % 4294967296
      simpa using hs

/-! ## Sensor identification (src/main/dps368.c, src/unnamed/part_001) -/

/-- Collaborator behaviour for one `dps368_init` call: whether
`i2c_bus_device_create` returns a handle, the product-ID register read
(`none` = bus error), and the success of the calibration read and the
three configuration writes. -/
structure Dps368Env where
  createOk : Bool
  prodIdRead : Option Nat
  coefReadOk : Bool
  prsCfgWriteOk : Bool
  tmpCfgWriteOk : Bool
  measCfgWriteOk : Bool

/-- Embedding of `dps368_init` (dps368.c lines 108-150): create the device,
read the product-ID register, fail with `ESP_FAIL` unless it reads exactly
0x10, then read the calibration coefficients and write the three
configuration registers, failing on any bus error. -/
def dps368_init (env : Dps368Env) : Except EspErr Unit :=
  if !env.createOk then .error .fail
  else
    match env.prodIdRead with
    | none => .error .busReadFailed
    | some prod_id =>
      if prod_id ≠ 0x10 then .error .fail
      else if !env.coefReadOk then .error .busReadFailed
      else if !env.prsCfgWriteOk then .error .busWriteFailed
      else if !env.tmpCfgWriteOk then .error .busWriteFailed
      else if !env.measCfgWriteOk then .error .busWriteFailed
      else .ok ()

/-- Collaborator behaviour for one `bme280_app_init` call: whether
`bme280_create` returns a handle, the chip-ID register read (`none` = bus
error), and the success of `bme280_set_sampling` and
`bme280_read_coefficients`. -/
structure Bme280Env where
  createOk : Bool
  chipIdRead : Option Nat
  setSamplingOk : Bool
  readCoefficientsOk : Bool

/-- Embedding of `bme280_app_init` (part_001 lines 102-158) together with
the `is_bmp280` static it writes. Chip-ID 0x60 is logged as BME280 and
sets the flag false; 0x58 is logged as BMP280 and sets it true; any other
ID is logged as an unknown sensor, sets the flag false, and initialisation
continues — the function does not fail on an identity mismatch. The result
pairs the returned `esp_err_t` with the final `is_bmp280` value. -/
def bme280_app_init (env : Bme280Env) (is_bmp280 : Bool) :
    Except EspErr Unit × Bool :=
  if !env.createOk then (.error .fail, is_bmp280)
  else
    match env.chipIdRead with
    | none => (.error .busReadFailed, is_bmp280)
    | some chip_id =>
      let flag := if chip_id = 0x60 then false
                  else if chip_id = 0x58 then true
                  else false
      if !env.setSamplingOk then (.error .fail, flag)
      else if !env.readCoefficientsOk then (.error .fail, flag)
      else (.ok (), flag)

/-- Probe environment for a chip whose chip-ID register reads 0x42 — a
signature matching neither BME280 (0x60) nor BMP280 (0x58) — with every
bus transaction succeeding. -/
def bme280_unknown_chip_env : Bme280Env :=
  { createOk := true, chipIdRead := some 0x42,
    setSamplingOk := true, readCoefficientsOk := true }

/-- C8 (counterexample): the combined-device probe accepts a device whose
chip-ID (0x42) matches neither signature: `bme280_app_init` returns OK and
classifies it as a BME280 (`is_bmp280 = false`), so the probe does not
accept "only when its signature matches", and "classified as BME280" is
not equivalent to "chip-ID reads 0x60". -/
theorem bme280_accepts_unknown_chip :
    (bme280_app_init bme280_unknown_chip_env false).1 = .ok () ∧
    (bme280_app_init bme280_unknown_chip_env false).2 = false ∧
    ¬ ((0x42 : Nat) = 0x60 ∨ (0x42 : Nat) = 0x58) :=
  ⟨rfl, rfl, by decide⟩

/-- C8 (amended): `dps368_init` reports success only if the product-ID
register read exactly 0x10, and the combined-device probe sets its BMP280
classification exactly when the chip-ID register reads 0x58 — any other ID
(0x60 or unknown) is handled as a BME280 and initialisation proceeds. The
two failing signatures checked, 0x10 and 0x58, remain distinct, but the
probe does not reject unmatched chip-IDs. -/
theorem sensor_id_signatures :
    (∀ env : Dps368Env, dps368_init env = .ok () →
        env.prodIdRead = some 0x10) ∧
    (∀ (env : Bme280Env) (b : Bool) (cid : Nat), env.createOk = true →
        env.chipIdRead = some cid →
        (bme280_app_init env b).2 = decide (cid = 0x58)) := by
  constructor
  · intro env h
    unfold dps368_init at h
    split at h
    · exact absurd h (by simp)
    · split at h
      · exact absurd h (by simp)
      · rename_i prod_id heq
        split at h
        · exact absurd h (by simp)
        · rename_i hne
          rw [heq]
          simp only [ne_eq, not_not] at hne
          rw [hne]
  · intro env b cid hc hid
    unfold bme280_app_init
    simp only [hc, Bool.not_true, Bool.false_eq_true, if_false, hid]
    by_cases h60 : cid = 0x60
    · subst h60
      by_cases hs : env.setSamplingOk <;> by_cases hr : env.readCoefficientsOk <;>
        simp [hs, hr]
    · by_cases h58 : cid = 0x58
      · subst h58
        by_cases hs : env.setSamplingOk <;> by_cases hr : env.readCoefficientsOk <;>
          simp [hs, hr]
      · by_cases hs : env.setSamplingOk <;> by_cases hr : env.readCoefficientsOk <;>
          simp [hs, hr, h60, h58]

/-- Environment in which `dps368_init` fully succeeds (product-ID 0x10,
all bus transactions OK). -/
def dps368_env_ok : Dps368Env :=
  { createOk := true, prodIdRead := some 0x10, coefReadOk := true,
    prsCfgWriteOk := true, tmpCfgWriteOk := true, measCfgWriteOk := true }

/-- Probe environment for a genuine BMP280 (chip-ID 0x58), all bus
transactions succeeding. -/
def bme280_bmp_chip_env : Bme280Env :=
  { createOk := true, chipIdRead := some 0x58,
    setSamplingOk := true, readCoefficientsOk := true }

/-- C8 (amended) witness: the successful DPS368 probe indeed saw product-ID
0x10, and the probe of a chip-ID-0x58 device sets the BMP280 flag. -/
theorem sensor_id_signatures_witness :
    dps368_env_ok.prodIdRead = some 0x10 ∧
    (bme280_app_init bme280_bmp_chip_env false).2 = decide ((0x58 : Nat) = 0x58) :=
  ⟨sensor_id_signatures.1 dps368_env_ok rfl,
   sensor_id_signatures.2 bme280_bmp_chip_env false 0x58 rfl rfl⟩
